import Mathlib

/-!
A shallow embedding of `src/Convert-Sitemap-To-TXT.py`, a batch sitemap
content-extraction pipeline: read URLs from a text file, validate each
(regex + HEAD probe), scrape the valid ones (GET + HTML tag extraction into
Markdown lines), and write a consolidated report plus a run log.

External effects (the network, the clock, the filesystem, the GUI dialogs)
are modelled as oracles/parameters in a `World` record; file writes, popup
notifications and progress-bar updates are recorded as data in `RunEffects`.
Python exceptions are modelled with `Except`/`Option`: an uncaught exception
escaping `main` appears as a `some`/`.error` outcome value.
-/

namespace Sitemap

/-- The fixed tag → Markdown line marker table of the script
(`MARKDOWN_TAGS`, source lines 12-19), kept as an ordered association list
because Python dict iteration order is insertion order and the script
iterates over `MARKDOWN_TAGS.keys()`. -/
def MARKDOWN_TAGS : List (String × String) :=
  [("title", "#"), ("h1", "#"), ("h2", "##"), ("h3", "###"), ("p", ""), ("li", "-")]

/-- `MARKDOWN_TAGS.get(tag, '')` (source line 63): association-list lookup
with default `""`. -/
def markdownTagsGet (tag : String) : String :=
  match MARKDOWN_TAGS.find? (fun kv => kv.1 == tag) with
  | some kv => kv.2
  | none => ""

/-- Prefix test on character lists (kernel-computable `startswith`). -/
def charsStartWith : List Char → List Char → Bool
  | [], _ => true
  | _ :: _, [] => false
  | p :: ps, c :: cs => p == c && charsStartWith ps cs

/-- `s.startswith(p)`: `p.data` is an initial segment of `s.data`. -/
def strStartsWith (s p : String) : Bool := charsStartWith p.data s.data

/-- Python's default `str.strip` character class (ASCII part). -/
def isPySpace (c : Char) : Bool :=
  c == ' ' || c == '\t' || c == '\n' || c == '\r' || c == '\x0b' || c == '\x0c'

/-- `str.strip()` on a character list: drop whitespace from both ends. -/
def stripChars (cs : List Char) : List Char :=
  ((cs.dropWhile isPySpace).reverse.dropWhile isPySpace).reverse

/-- `str.strip()` with no argument. -/
def pyStrip (s : String) : String := ⟨stripChars s.data⟩

/-- The lead character test of the regex tail `.+`: `re` `.` matches any
character except a newline, and `re.match` only anchors at the start, so the
pattern tail succeeds exactly when at least one non-newline character
follows the scheme. -/
def patternTailOk (rest : String) : Bool :=
  match rest.data with
  | [] => false
  | c :: _ => c != '\n'

/-- `re.compile(r'^https?://.+').match(url)` (source line 26-27): the string
starts with `http://` or `https://` and at least one non-newline character
follows. -/
def matchesUrlPattern (s : String) : Bool :=
  (strStartsWith s "http://" && patternTailOk (s.drop 7)) ||
  (strStartsWith s "https://" && patternTailOk (s.drop 8))

/-- `is_valid_url` (source lines 25-39).  The HEAD probe
`requests.head(url, timeout=5, allow_redirects=True)` is the oracle
`probe : String → Except String Nat`: `.ok code` is a response with that
status code, `.error msg` is a raised `requests.RequestException` rendered
by `str(e)`.  The `except requests.RequestException` clause is the `.error`
match arm, so the translated function is total: no exception escapes it.
The shared mutable `log_lines` list the Python function appends to is
returned as the second component (the appended delta); timestamps
(`datetime.now()`) are abstracted by the `now` string. -/
def is_valid_url (now url : String) (probe : String → Except String Nat) :
    Bool × List String :=
  if matchesUrlPattern url = false then
    (false, ["[" ++ now ++ "] ⛔ Invalid format: " ++ url])
  else
    match probe url with
    | .ok code =>
        if 400 ≤ code then
          (false, ["[" ++ now ++ "] 🚫 Unreachable (" ++ toString code ++ "): " ++ url])
        else
          (true, ["[" ++ now ++ "] ✅ Valid: " ++ url])
    | .error e =>
        (false, ["[" ++ now ++ "] ⚠️ Exception: " ++ url ++ " | " ++ e])

/-- One HTML element as the extractor sees it: its tag name and its raw
visible text (`get_text` before stripping).  The parsed page is modelled as
the flat list of elements in document order; `soup.find_all(tag)` is then a
filter on that list. -/
structure Element where
  tag : String
  text : String
deriving DecidableEq

/-- The result of `requests.get(url, timeout=10)` when no exception is
raised: status code, reason phrase (used by `raise_for_status` messages) and
the parsed body. -/
structure Page where
  status : Nat
  reason : String
  body : List Element
deriving DecidableEq

/-- `response.raise_for_status()` raises `HTTPError` exactly for client
(4xx) and server (5xx) error codes. -/
def raiseForStatusFails (status : Nat) : Bool :=
  (400 ≤ status && status < 500) || (500 ≤ status && status < 600)

/-- The message of the `HTTPError` that `raise_for_status` raises, as
`str(e)` renders it (`requests/models.py`): `"<code> Client Error: <reason>
for url: <url>"` for 4xx, `Server Error` for 5xx. -/
def httpErrorText (status : Nat) (reason url : String) : String :=
  if status < 500 then
    toString status ++ " Client Error: " ++ reason ++ " for url: " ++ url
  else
    toString status ++ " Server Error: " ++ reason ++ " for url: " ++ url

/-- The body of the inner loop of `extract_text_by_tag` (source lines
60-64): `element.get_text(strip=True)` is modelled as `.trim`; empty texts
are skipped; a non-empty Markdown marker is prepended with a space,
otherwise the bare text is the line. -/
def renderElement (tag : String) (e : Element) : Option String :=
  let text := pyStrip e.text
  if text = "" then none
  else
    let p := markdownTagsGet tag
    some (if p = "" then text else p ++ " " ++ text)

/-- The nested loops of `extract_text_by_tag` (source lines 59-64): for each
tag of `tags_to_extract` in order, every element of that tag in document
order contributes its rendered line. -/
def extractLines (tags_to_extract : List String) (body : List Element) :
    List String :=
  tags_to_extract.flatMap (fun tag =>
    (body.filter (fun e => e.tag == tag)).filterMap (renderElement tag))

/-- The per-URL result of extraction, in the vocabulary of the report:
either an error message (fetch raised, or `raise_for_status` raised) with no
content lines, or the extracted content lines.  The Python function returns
the rendered string directly; `renderSection` below produces exactly that
string from this record. -/
structure ExtractionSection where
  url : String
  error : Option String
  lines : List String
deriving DecidableEq

/-- `extract_text_by_tag` (source lines 45-67), structured: the `try` block
around `requests.get`/`raise_for_status` with its `except Exception` clause
becomes the `.error`/4xx-5xx branches. -/
def extract_section (url : String) (tags_to_extract : List String)
    (fetch : String → Except String Page) : ExtractionSection :=
  match fetch url with
  | .error e =>
      { url := url
        error := some ("❌ **Error accessing " ++ url ++ "**: " ++ e)
        lines := [] }
  | .ok page =>
      if raiseForStatusFails page.status then
        { url := url
          error := some ("❌ **Error accessing " ++ url ++ "**: " ++
            httpErrorText page.status page.reason url)
          lines := [] }
      else
        { url := url
          error := none
          lines := extractLines tags_to_extract page.body }

/-- The string `extract_text_by_tag` returns (source lines 50 and 54-67):
on failure the formatted error block, on success the header lines, the
content lines and the separator joined with newlines.  The scrape timestamp
(`datetime.now().strftime(...)`, line 53) is abstracted by `now`. -/
def renderSection (now : String) (s : ExtractionSection) : String :=
  match s.error with
  | some e => "\n---\n" ++ e ++ "\n---\n"
  | none =>
      String.intercalate "\n"
        (["\n---\n### 🧽 URL: [" ++ s.url ++ "](" ++ s.url ++ ")",
          "🕒 Scraped at: " ++ now ++ "\n"] ++ s.lines ++ ["\n---\n"])

/-- `extract_text_by_tag` as the source writes it: a single string per
URL. -/
def extract_text_by_tag (now url : String) (tags_to_extract : List String)
    (fetch : String → Except String Page) : String :=
  renderSection now (extract_section url tags_to_extract fetch)

/-- `update_progress` (source lines 107-110) computes
`int((current / total) * 100)`; Python raises `ZeroDivisionError` when
`total = 0`, modelled by `none`.  (Float rounding of the true-division is
abstracted to integer division; no claim depends on the rounded value.) -/
def update_progress (current total : Nat) : Option Nat :=
  if total = 0 then none else some (current * 100 / total)

/-- `[line.strip() for line in f if line.strip()]` (source line 123). -/
def stripLines (lines : List String) : List String :=
  lines.filterMap (fun l => if pyStrip l = "" then none else some (pyStrip l))

/-- The part of a character list after its last occurrence of `sep` (the
whole list when `sep` is absent). -/
def afterLastChar (sep : Char) (cs : List Char) : List Char :=
  (cs.reverse.takeWhile (fun c => c != sep)).reverse

/-- `os.path.basename` (posix): the part after the last `/`. -/
def basename (p : String) : String := ⟨afterLastChar '/' p.data⟩

/-- The root part of `os.path.splitext`: drop the extension starting at the
last dot, unless every character before that dot is itself a dot (the
leading-dots rule of `posixpath.splitext`). -/
def splitextRoot (name : String) : String :=
  let cs := name.data
  match cs.reverse.findIdx? (fun c => c == '.') with
  | none => name
  | some j =>
      let d := cs.length - 1 - j
      if (cs.take d).all (fun c => c == '.') then name
      else ⟨cs.take d⟩

/-- An exception that escapes `main`.  Opening a missing or unreadable input
file (source line 122) raises `FileNotFoundError`/`OSError`; `main` installs
no handler for it. -/
inductive PyError where
  | fileNotFound (path : String)
deriving DecidableEq

/-- The observable effects of one run: files written as (path, content)
pairs in write order, popups shown by `show_popup` as (title, message)
pairs, and the (current, total) arguments of every `update_progress`
call. -/
structure RunEffects where
  filesWritten : List (String × String)
  popups : List (String × String)
  progressCalls : List (Nat × Nat)
deriving DecidableEq

/-- The external collaborators of one run, as oracles: the input file's raw
lines (`none` if opening raises), the folder chosen in
`select_output_directory` (`""` when the dialog is cancelled), the two
network oracles, and the strings the clock produces (`now` for log-line
timestamps, `timestamp` for the `%Y%m%d-%H%M%S` folder stamp, `runDate` for
the summary header). -/
structure World where
  readFile : Option (List String)
  output_root : String
  probe : String → Except String Nat
  fetch : String → Except String Page
  now : String
  timestamp : String
  runDate : String

/-- The validation loop of `main` (source lines 151-154): `enumerate` over
the URLs, append each URL's log delta, collect the URLs `is_valid_url`
accepted, and record the `update_progress(i+1, len(urls))` call.  Returns
(log lines, valid URLs, progress calls). -/
def validationLoop (now : String) (probe : String → Except String Nat)
    (n : Nat) : Nat → List String →
    List String × List String × List (Nat × Nat)
  | _, [] => ([], [], [])
  | i, url :: rest =>
    let r := is_valid_url now url probe
    let acc := validationLoop now probe n (i + 1) rest
    (r.2 ++ acc.1, (if r.1 then [url] else []) ++ acc.2.1, (i + 1, n) :: acc.2.2)

/-- The scraping loop of `main` (source lines 166-169): append
`extract_text_by_tag(url, list(MARKDOWN_TAGS.keys()))` for each valid URL in
order, recording the `update_progress(i+1, len(valid_urls))` call.  Returns
(result strings, progress calls). -/
def scrapeLoop (now : String) (tags : List String)
    (fetch : String → Except String Page) (n : Nat) :
    Nat → List String → List String × List (Nat × Nat)
  | _, [] => ([], [])
  | i, url :: rest =>
    let s := extract_text_by_tag now url tags fetch
    let acc := scrapeLoop now tags fetch n (i + 1) rest
    (s :: acc.1, (i + 1, n) :: acc.2)

/-- The three summary counts of the report header (source lines 176-178):
`len(urls)`, `len(valid_urls)` and their Python-int difference. -/
def summaryCounts (urls valid_urls : List String) : Nat × Nat × Int :=
  (urls.length, valid_urls.length,
   (urls.length : Int) - (valid_urls.length : Int))

/-- `summary_lines` of `main` (source lines 172-180). -/
def summary_lines (runDate inputFileName : String)
    (urls valid_urls : List String) : List String :=
  let c := summaryCounts urls valid_urls
  ["## 📟 Summary Report\n",
   "- 📅 Run date: " ++ runDate,
   "- 📄 Input file: " ++ inputFileName,
   "- 🔗 Total URLs scanned: " ++ toString c.1,
   "- ✅ Pages successfully scraped: " ++ toString c.2.1,
   "- ❌ Pages skipped or failed: " ++ toString c.2.2,
   "\n---\n"]

/-- `main` (source lines 117-192).  Directory creation (`os.makedirs`) and
the progress-bar window are presentation glue and leave no trace in
`RunEffects` beyond the recorded progress calls.  The second component is
`some e` when an exception `e` escapes `main` (only the input-file `open`
can raise here), with the effects accumulated up to that point in the first
component. -/
def main (input_txt : String) (w : World) : RunEffects × Option PyError :=
  match w.readFile with
  | none =>
      ({ filesWritten := [], popups := [], progressCalls := [] },
       some (.fileNotFound input_txt))
  | some rawLines =>
      let urls := stripLines rawLines
      let base_name := splitextRoot (basename input_txt)
      if w.output_root = "" then
        ({ filesWritten := []
           popups := [("❌ Cancelled", "No output folder selected. Exiting.")]
           progressCalls := [] }, none)
      else
        let final_output_dir :=
          w.output_root ++ "/" ++ w.timestamp ++ "-" ++ base_name
        let output_txt :=
          final_output_dir ++ "/" ++ base_name ++ "-full_text_output.txt"
        let log_txt := final_output_dir ++ "/" ++ base_name ++ "-log.txt"
        let v := validationLoop w.now w.probe urls.length 0 urls
        let log_lines := v.1
        let valid_urls := v.2.1
        if valid_urls = [] then
          let log2 := log_lines ++
            ["[" ++ w.now ++ "] ❌ No valid URLs to process."]
          ({ filesWritten := [(log_txt, String.intercalate "\n" log2)]
             popups := [("❌ No Valid URLs", "No valid URLs found. Exiting.")]
             progressCalls := v.2.2 }, none)
        else
          let sc := scrapeLoop w.now (MARKDOWN_TAGS.map Prod.fst) w.fetch
            valid_urls.length 0 valid_urls
          let report :=
            String.intercalate "\n"
              (summary_lines w.runDate (basename input_txt) urls valid_urls) ++
            "\n\n" ++ String.intercalate "\n\n" sc.1
          let log2 := log_lines ++
            ["[" ++ w.now ++ "] ✅ Scraping complete. Output saved to " ++ output_txt]
          ({ filesWritten :=
               [(output_txt, report), (log_txt, String.intercalate "\n" log2)]
             popups :=
               [("✅ Scraping Complete", "Output folder:\n" ++ final_output_dir)]
             progressCalls := v.2.2 ++ sc.2 }, none)

/-! ## Loop characterizations -/

/-- The validation loop's log component is the concatenation of the per-URL
log deltas, in input order. -/
theorem validationLoop_log (now : String) (probe : String → Except String Nat)
    (n : Nat) (urls : List String) : ∀ i,
    (validationLoop now probe n i urls).1 =
      urls.flatMap (fun u => (is_valid_url now u probe).2) := by
  induction urls with
  | nil => intro i; rfl
  | cons u rest ih => intro i; simp [validationLoop, ih]

/-- The validation loop's valid-URL component is the input list filtered by
`is_valid_url`, hence an order-preserving subsequence of the input. -/
theorem validationLoop_valid (now : String) (probe : String → Except String Nat)
    (n : Nat) (urls : List String) : ∀ i,
    (validationLoop now probe n i urls).2.1 =
      urls.filter (fun u => (is_valid_url now u probe).1) := by
  induction urls with
  | nil => intro i; rfl
  | cons u rest ih =>
      intro i
      rcases hb : (is_valid_url now u probe).1 <;>
        simp [validationLoop, ih, List.filter_cons, hb]

/-- The scraping loop's results component maps `extract_text_by_tag` over
the valid URLs, in order. -/
theorem scrapeLoop_results (now : String) (tags : List String)
    (fetch : String → Except String Page) (n : Nat) (urls : List String) : ∀ i,
    (scrapeLoop now tags fetch n i urls).1 =
      urls.map (fun u => extract_text_by_tag now u tags fetch) := by
  induction urls with
  | nil => intro i; rfl
  | cons u rest ih => intro i; simp [scrapeLoop, ih]

/-! ## Closed forms of a run's artifacts

Named mirrors of what `main` produces, used to state the run theorems
compactly.  Each is proven equal to the corresponding piece of `main`'s
output by `main_success_run` / `main_novalid_run` below. -/

/-- The subsequence of (trimmed, non-blank) input URLs accepted by
`is_valid_url`. -/
def validatedUrls (w : World) (raw : List String) : List String :=
  (stripLines raw).filter (fun u => (is_valid_url w.now u w.probe).1)

/-- The per-URL report sections, one per validated URL, in input order. -/
def sectionStrings (w : World) (raw : List String) : List String :=
  (validatedUrls w raw).map
    (fun u => extract_text_by_tag w.now u (MARKDOWN_TAGS.map Prod.fst) w.fetch)

/-- The full report text: summary header, then the sections joined with
blank lines. -/
def reportText (input_txt : String) (w : World) (raw : List String) : String :=
  String.intercalate "\n"
    (summary_lines w.runDate (basename input_txt) (stripLines raw)
      (validatedUrls w raw)) ++
  "\n\n" ++ String.intercalate "\n\n" (sectionStrings w raw)

/-- The per-URL validation log lines, in input order. -/
def validationLogLines (w : World) (raw : List String) : List String :=
  (stripLines raw).flatMap (fun u => (is_valid_url w.now u w.probe).2)

/-- The timestamped output directory `{output_root}/{timestamp}-{base_name}`
(source line 135). -/
def runDirPath (input_txt : String) (w : World) : String :=
  w.output_root ++ "/" ++ w.timestamp ++ "-" ++ splitextRoot (basename input_txt)

/-- The report file path `{dir}/{base_name}-full_text_output.txt` (source
line 138). -/
def reportFilePath (input_txt : String) (w : World) : String :=
  runDirPath input_txt w ++ "/" ++ splitextRoot (basename input_txt) ++
    "-full_text_output.txt"

/-- The log file path `{dir}/{base_name}-log.txt` (source line 139). -/
def logFilePath (input_txt : String) (w : World) : String :=
  runDirPath input_txt w ++ "/" ++ splitextRoot (basename input_txt) ++ "-log.txt"

/-- The log text of a completed run. -/
def successLogText (input_txt : String) (w : World) (raw : List String) : String :=
  String.intercalate "\n" (validationLogLines w raw ++
    ["[" ++ w.now ++ "] ✅ Scraping complete. Output saved to " ++
      reportFilePath input_txt w])

/-- The log text of a run that found no valid URLs. -/
def noValidLogText (w : World) (raw : List String) : String :=
  String.intercalate "\n" (validationLogLines w raw ++
    ["[" ++ w.now ++ "] ❌ No valid URLs to process."])

/-! ## Run characterizations -/

/-- Unfolding of `main` on the success path (input readable, output folder
chosen, at least one valid URL): both files are written with their
closed-form contents, the report's sections being the extraction results of
exactly the validated URLs in input order. -/
theorem main_success_run (input_txt : String) (w : World) (raw : List String)
    (hread : w.readFile = some raw) (hroot : ¬ w.output_root = "")
    (hvalid : ¬ validatedUrls w raw = []) :
    main input_txt w =
      ({ filesWritten :=
           [(reportFilePath input_txt w, reportText input_txt w raw),
            (logFilePath input_txt w, successLogText input_txt w raw)]
         popups :=
           [("✅ Scraping Complete", "Output folder:\n" ++ runDirPath input_txt w)]
         progressCalls :=
           (validationLoop w.now w.probe (stripLines raw).length 0
             (stripLines raw)).2.2 ++
           (scrapeLoop w.now (MARKDOWN_TAGS.map Prod.fst) w.fetch
             (validatedUrls w raw).length 0 (validatedUrls w raw)).2 }, none) := by
  simp only [main, hread]
  rw [if_neg hroot]
  simp only [validationLoop_log, validationLoop_valid, scrapeLoop_results]
  rw [if_neg (show ¬ (stripLines raw).filter
    (fun u => (is_valid_url w.now u w.probe).1) = [] from hvalid)]
  simp only [reportFilePath, reportText, logFilePath, successLogText,
    runDirPath, validatedUrls, sectionStrings, validationLogLines,
    String.append_assoc]

/-- Unfolding of `main` on the no-valid-URLs path: only the log file is
written, with the "No valid URLs" entry appended after the per-URL
validation lines, and the run ends normally. -/
theorem main_novalid_run (input_txt : String) (w : World) (raw : List String)
    (hread : w.readFile = some raw) (hroot : ¬ w.output_root = "")
    (hvalid : validatedUrls w raw = []) :
    main input_txt w =
      ({ filesWritten := [(logFilePath input_txt w, noValidLogText w raw)]
         popups := [("❌ No Valid URLs", "No valid URLs found. Exiting.")]
         progressCalls :=
           (validationLoop w.now w.probe (stripLines raw).length 0
             (stripLines raw)).2.2 }, none) := by
  simp only [main, hread]
  rw [if_neg hroot]
  simp only [validationLoop_log, validationLoop_valid]
  rw [if_pos (show (stripLines raw).filter
    (fun u => (is_valid_url w.now u w.probe).1) = [] from hvalid)]
  simp only [logFilePath, noValidLogText, runDirPath, validationLogLines,
    String.append_assoc]

/-- Whenever the input file is readable, no exception escapes `main`: every
per-URL failure is captured as data in the log or the report. -/
theorem main_no_exception (input_txt : String) (w : World) (raw : List String)
    (hread : w.readFile = some raw) : (main input_txt w).2 = none := by
  simp only [main, hread]
  by_cases hroot : w.output_root = ""
  · rw [if_pos hroot]
  · rw [if_neg hroot]
    by_cases hvalid : (validationLoop w.now w.probe (stripLines raw).length 0
        (stripLines raw)).2.1 = []
    · rw [if_pos hvalid]
    · rw [if_neg hvalid]

/-! ## Concrete runs used by the witnesses -/

/-- Example raw input lines: one valid URL, one blank line, one malformed
URL. -/
def exampleRaw : List String := ["http://a", "", "ftp://b"]

/-- A concrete world: readable input, output folder chosen, every probe
answers 200, every fetch returns a small page. -/
def exampleWorld : World :=
  { readFile := some exampleRaw
    output_root := "/out"
    probe := fun _ => .ok 200
    fetch := fun _ => .ok ⟨200, "OK", [⟨"h1", "Hello"⟩, ⟨"p", "World"⟩]⟩
    now := "T", timestamp := "20260101-120000", runDate := "RD" }

/-- A world whose two input URLs are both valid but whose fetch of the first
raises a timeout: the run must still cover both URLs. -/
def fetchFailWorld : World :=
  { readFile := some ["http://a", "http://b"]
    output_root := "/out"
    probe := fun _ => .ok 200
    fetch := fun u => if u == "http://a" then .error "timeout"
      else .ok ⟨200, "OK", [⟨"p", "fine"⟩]⟩
    now := "T", timestamp := "20260101-120000", runDate := "RD" }

/-- A world whose only input URL fails validation. -/
def noValidWorld : World :=
  { readFile := some ["ftp://x"]
    output_root := "/out"
    probe := fun _ => .ok 200
    fetch := fun _ => .ok ⟨200, "OK", []⟩
    now := "T", timestamp := "20260101-120000", runDate := "RD" }

/-- A world whose input file exists but holds only blank lines. -/
def emptyInputWorld : World :=
  { readFile := some ["", "   "]
    output_root := "/out"
    probe := fun _ => .ok 200
    fetch := fun _ => .ok ⟨200, "OK", []⟩
    now := "T", timestamp := "20260101-120000", runDate := "RD" }

/-- A world whose input file cannot be opened. -/
def missingInputWorld : World :=
  { readFile := none
    output_root := "/out"
    probe := fun _ => .ok 200
    fetch := fun _ => .ok ⟨200, "OK", []⟩
    now := "T", timestamp := "20260101-120000", runDate := "RD" }

/-! ## Claims -/

/-- C1: the report's per-URL sections are, in order, the extraction results
of the subsequence of input URLs that passed validation, and the valid-URL
list is itself an order-preserving subsequence (`List.Sublist`) of the
(trimmed, non-blank) input list. -/
theorem report_order_matches_validated_input_order
    (input_txt : String) (w : World) (raw : List String)
    (hread : w.readFile = some raw) (hroot : ¬ w.output_root = "")
    (hvalid : ¬ validatedUrls w raw = []) :
    (validatedUrls w raw).Sublist (stripLines raw) ∧
    (main input_txt w).1.filesWritten.map Prod.snd =
      [String.intercalate "\n"
          (summary_lines w.runDate (basename input_txt) (stripLines raw)
            (validatedUrls w raw)) ++ "\n\n" ++
        String.intercalate "\n\n"
          ((validatedUrls w raw).map (fun u =>
            extract_text_by_tag w.now u (MARKDOWN_TAGS.map Prod.fst) w.fetch)),
       successLogText input_txt w raw] := by
  refine ⟨List.filter_sublist _, ?_⟩
  rw [main_success_run input_txt w raw hread hroot hvalid]
  simp [reportText, sectionStrings]

/-- C1 witness: the hypotheses and the conclusion at a concrete run. -/
theorem report_order_matches_validated_input_order_witness :
    (¬ validatedUrls exampleWorld exampleRaw = []) ∧
    ((validatedUrls exampleWorld exampleRaw).Sublist (stripLines exampleRaw) ∧
     (main "sitemap.txt" exampleWorld).1.filesWritten.map Prod.snd =
       [String.intercalate "\n"
           (summary_lines exampleWorld.runDate (basename "sitemap.txt")
             (stripLines exampleRaw) (validatedUrls exampleWorld exampleRaw)) ++
         "\n\n" ++
         String.intercalate "\n\n"
           ((validatedUrls exampleWorld exampleRaw).map (fun u =>
             extract_text_by_tag exampleWorld.now u (MARKDOWN_TAGS.map Prod.fst)
               exampleWorld.fetch)),
        successLogText "sitemap.txt" exampleWorld exampleRaw]) :=
  ⟨by decide, report_order_matches_validated_input_order "sitemap.txt"
    exampleWorld exampleRaw rfl (by decide) (by decide)⟩

/-- Helper: the inner-loop body `renderElement tag` coincides with its
spelled-out form once the tag's Markdown marker is computed. -/
theorem filterMap_renderElement (tag pre : String)
    (hpre : markdownTagsGet tag = pre) (l : List Element) :
    l.filterMap (renderElement tag) =
      l.filterMap (fun e => if pyStrip e.text = "" then none
        else some (if pre = "" then pyStrip e.text
          else pre ++ " " ++ pyStrip e.text)) := by
  subst hpre
  rfl

/-- C2: for a successfully fetched page, the content lines are grouped by
tag in the fixed order title, h1, h2, h3, p, li (document order preserved
within each group); each non-empty element is rendered as the marker, a
space, and the text when the marker is non-empty, else as the bare text; in
particular the `<h1>Hello</h1><p>World</p>` page yields exactly `# Hello`
then `World` in either document order. -/
theorem extraction_groups_lines_by_fixed_tag_order
    (url : String) (fetch : String → Except String Page) (page : Page)
    (hf : fetch url = .ok page) (hok : raiseForStatusFails page.status = false) :
    (extract_section url (MARKDOWN_TAGS.map Prod.fst) fetch).lines =
      [("title", "#"), ("h1", "#"), ("h2", "##"), ("h3", "###"),
       ("p", ""), ("li", "-")].flatMap
        (fun tp => (page.body.filter (fun e => e.tag == tp.1)).filterMap
          (fun e => if pyStrip e.text = "" then none
            else some (if tp.2 = "" then pyStrip e.text
              else tp.2 ++ " " ++ pyStrip e.text))) ∧
    (extract_section "http://x" (MARKDOWN_TAGS.map Prod.fst)
        (fun _ => .ok ⟨200, "OK", [⟨"h1", "Hello"⟩, ⟨"p", "World"⟩]⟩)).lines =
      ["# Hello", "World"] ∧
    (extract_section "http://x" (MARKDOWN_TAGS.map Prod.fst)
        (fun _ => .ok ⟨200, "OK", [⟨"p", "World"⟩, ⟨"h1", "Hello"⟩]⟩)).lines =
      ["# Hello", "World"] := by
  refine ⟨?_, by decide, by decide⟩
  simp only [extract_section, hf, hok, Bool.false_eq_true, if_false]
  simp only [extractLines, MARKDOWN_TAGS, List.map_cons, List.map_nil,
    List.flatMap_cons, List.flatMap_nil, List.append_nil]
  rw [filterMap_renderElement "title" "#" rfl,
    filterMap_renderElement "h1" "#" rfl,
    filterMap_renderElement "h2" "##" rfl,
    filterMap_renderElement "h3" "###" rfl,
    filterMap_renderElement "p" "" rfl,
    filterMap_renderElement "li" "-" rfl]
  simp

/-- A concrete page holding several mixed-order elements, one of which
strips to empty text, and its constant fetch oracle. -/
def mixedPage : Page :=
  ⟨200, "OK", [⟨"p", "World"⟩, ⟨"li", " x "⟩, ⟨"h1", "Hello"⟩, ⟨"p", "  "⟩]⟩

/-- A fetch oracle that answers every URL with `mixedPage`. -/
def mixedFetch : String → Except String Page := fun _ => .ok mixedPage

/-- C2 witness: the hypotheses and the grouped-extraction identity at a
concrete page holding elements in mixed document order plus an element whose
text strips to empty. -/
theorem extraction_groups_lines_by_fixed_tag_order_witness :
    mixedFetch "http://x" = .ok mixedPage ∧
    raiseForStatusFails mixedPage.status = false ∧
    (extract_section "http://x" (MARKDOWN_TAGS.map Prod.fst) mixedFetch).lines =
      ["# Hello", "World", "- x"] :=
  ⟨rfl, rfl, by
    have h := (extraction_groups_lines_by_fixed_tag_order "http://x"
      mixedFetch mixedPage rfl rfl).1
    rw [h]
    decide⟩

/-- C3: a string that fails the `^https?://.+` pattern is rejected with the
Invalid-format log line, and the result does not depend on the network
oracle at all: no network call is made. -/
theorem malformed_url_rejected_without_network
    (now url : String) (probe probe2 : String → Except String Nat)
    (h : matchesUrlPattern url = false) :
    is_valid_url now url probe =
      (false, ["[" ++ now ++ "] ⛔ Invalid format: " ++ url]) ∧
    is_valid_url now url probe = is_valid_url now url probe2 := by
  constructor <;> simp [is_valid_url, h]

/-- C3 witness: the hypothesis and conclusion at `"ftp://x"`, with two
network oracles that disagree everywhere. -/
theorem malformed_url_rejected_without_network_witness :
    matchesUrlPattern "ftp://x" = false ∧
    (is_valid_url "T" "ftp://x" (fun _ => .ok 200) =
      (false, ["[T] ⛔ Invalid format: ftp://x"]) ∧
     is_valid_url "T" "ftp://x" (fun _ => .ok 200) =
      is_valid_url "T" "ftp://x" (fun _ => .error "boom")) :=
  ⟨by decide, malformed_url_rejected_without_network "T" "ftp://x"
    (fun _ => .ok 200) (fun _ => .error "boom") (by decide)⟩

/-- C4: when the HEAD probe raises a `requests.RequestException` (timeout,
DNS failure, connection refused, TLS error), `is_valid_url` returns the
failure as data — `false` plus the Exception log line — and no exception
escapes the validator or, past it, `main` (the run's error component stays
`none` whenever the input file was readable). -/
theorem network_failure_captured_as_data
    (now url msg input_txt : String) (w : World) (raw : List String)
    (probe : String → Except String Nat)
    (hm : matchesUrlPattern url = true) (hp : probe url = .error msg)
    (hread : w.readFile = some raw) :
    is_valid_url now url probe =
      (false, ["[" ++ now ++ "] ⚠️ Exception: " ++ url ++ " | " ++ msg]) ∧
    (main input_txt w).2 = none := by
  refine ⟨?_, main_no_exception input_txt w raw hread⟩
  simp [is_valid_url, hm, hp]

/-- A world whose input URL is well-formed but whose every HEAD probe times
out. -/
def timeoutWorld : World :=
  { readFile := some ["http://a"]
    output_root := "/out"
    probe := fun _ => .error "timed out"
    fetch := fun _ => .ok ⟨200, "OK", []⟩
    now := "T", timestamp := "20260101-120000", runDate := "RD" }

/-- C4 witness: the hypotheses and conclusion at a concrete timed-out
probe, inside a world whose probes all time out. -/
theorem network_failure_captured_as_data_witness :
    matchesUrlPattern "http://a" = true ∧
    timeoutWorld.probe "http://a" = .error "timed out" ∧
    (is_valid_url "T" "http://a" timeoutWorld.probe =
      (false, ["[T] ⚠️ Exception: http://a | timed out"]) ∧
     (main "sitemap.txt" timeoutWorld).2 = none) :=
  ⟨by decide, rfl, network_failure_captured_as_data "T" "http://a" "timed out"
    "sitemap.txt" timeoutWorld ["http://a"] timeoutWorld.probe
    (by decide) rfl rfl⟩

/-- C5 counterexample: a 304 Not Modified response is not 2xx, yet the code
treats it as a success — `raise_for_status` only raises for 4xx/5xx — so the
section has no error and its lines come from the body, against the claim's
"non-2xx status ⇒ error section". -/
theorem non_error_section_on_304_counterexample :
    (extract_section "http://x" (MARKDOWN_TAGS.map Prod.fst)
        (fun _ => .ok ⟨304, "Not Modified", [⟨"p", "hi"⟩]⟩)).error = none ∧
    (extract_section "http://x" (MARKDOWN_TAGS.map Prod.fst)
        (fun _ => .ok ⟨304, "Not Modified", [⟨"p", "hi"⟩]⟩)).lines = ["hi"] := by
  decide

/-- C5 (amended): for every URL whose fetch raises, or whose response status
is 4xx/5xx (the statuses `raise_for_status` raises for — not every non-2xx
status), the section's error field holds the formatted failure message and
its content lines are empty; and the run continues: the report is still
produced, with one section per validated URL, in order. -/
theorem fetch_failure_yields_error_section_and_run_continues
    (url url2 emsg input_txt : String) (tags : List String)
    (fetch fetch2 : String → Except String Page) (page2 : Page)
    (w : World) (raw : List String)
    (hf : fetch url = .error emsg)
    (hf2 : fetch2 url2 = .ok page2)
    (hbad : raiseForStatusFails page2.status = true)
    (hread : w.readFile = some raw) (hroot : ¬ w.output_root = "")
    (hvalid : ¬ validatedUrls w raw = []) :
    (extract_section url tags fetch).error =
      some ("❌ **Error accessing " ++ url ++ "**: " ++ emsg) ∧
    (extract_section url tags fetch).lines = [] ∧
    (extract_section url2 tags fetch2).error =
      some ("❌ **Error accessing " ++ url2 ++ "**: " ++
        httpErrorText page2.status page2.reason url2) ∧
    (extract_section url2 tags fetch2).lines = [] ∧
    ((main input_txt w).1.filesWritten.map Prod.snd).head? =
      some (reportText input_txt w raw) ∧
    (sectionStrings w raw).length = (validatedUrls w raw).length := by
  refine ⟨?_, ?_, ?_, ?_, ?_, by simp [sectionStrings]⟩
  · simp [extract_section, hf]
  · simp [extract_section, hf]
  · simp [extract_section, hf2, hbad]
  · simp [extract_section, hf2, hbad]
  · rw [main_success_run input_txt w raw hread hroot hvalid]
    rfl

/-- A page whose status makes `raise_for_status` raise. -/
def notFoundPage : Page := ⟨404, "Not Found", []⟩

/-- A fetch oracle that answers every URL with `notFoundPage`. -/
def notFoundFetch : String → Except String Page := fun _ => .ok notFoundPage

/-- C5 witness: the hypotheses and conclusion at a concrete run with two
validated URLs, the first of which times out during fetch, next to an
oracle whose response is a 404. -/
theorem fetch_failure_yields_error_section_and_run_continues_witness :
    fetchFailWorld.fetch "http://a" = .error "timeout" ∧
    notFoundFetch "http://b" = .ok notFoundPage ∧
    raiseForStatusFails notFoundPage.status = true ∧
    fetchFailWorld.readFile = some ["http://a", "http://b"] ∧
    (¬ validatedUrls fetchFailWorld ["http://a", "http://b"] = []) ∧
    ((extract_section "http://a" (MARKDOWN_TAGS.map Prod.fst)
        fetchFailWorld.fetch).error =
      some ("❌ **Error accessing " ++ "http://a" ++ "**: " ++ "timeout") ∧
     (extract_section "http://a" (MARKDOWN_TAGS.map Prod.fst)
        fetchFailWorld.fetch).lines = [] ∧
     (extract_section "http://b" (MARKDOWN_TAGS.map Prod.fst)
        notFoundFetch).error =
      some ("❌ **Error accessing " ++ "http://b" ++ "**: " ++
        httpErrorText notFoundPage.status notFoundPage.reason "http://b") ∧
     (extract_section "http://b" (MARKDOWN_TAGS.map Prod.fst)
        notFoundFetch).lines = [] ∧
     ((main "in.txt" fetchFailWorld).1.filesWritten.map Prod.snd).head? =
      some (reportText "in.txt" fetchFailWorld ["http://a", "http://b"]) ∧
     (sectionStrings fetchFailWorld ["http://a", "http://b"]).length =
      (validatedUrls fetchFailWorld ["http://a", "http://b"]).length) :=
  ⟨rfl, rfl, rfl, rfl, by decide,
   fetch_failure_yields_error_section_and_run_continues "http://a" "http://b"
     "timeout" "in.txt" (MARKDOWN_TAGS.map Prod.fst) fetchFailWorld.fetch
     notFoundFetch notFoundPage fetchFailWorld ["http://a", "http://b"]
     rfl rfl rfl rfl (by decide) (by decide)⟩

/-- C6: the summary counts of a produced report satisfy
total_valid + total_failed = total_scanned, with total_scanned the number of
non-blank input lines, total_valid the number of URLs that passed
validation, and total_failed their difference; the report's summary header
is built from exactly these counts. -/
theorem summary_counts_invariant
    (input_txt : String) (w : World) (raw : List String)
    (hread : w.readFile = some raw) (hroot : ¬ w.output_root = "")
    (hvalid : ¬ validatedUrls w raw = []) :
    ((summaryCounts (stripLines raw) (validatedUrls w raw)).2.1 : Int) +
      (summaryCounts (stripLines raw) (validatedUrls w raw)).2.2 =
      ((summaryCounts (stripLines raw) (validatedUrls w raw)).1 : Int) ∧
    (summaryCounts (stripLines raw) (validatedUrls w raw)).1 =
      (stripLines raw).length ∧
    (summaryCounts (stripLines raw) (validatedUrls w raw)).2.1 =
      (validatedUrls w raw).length ∧
    (validatedUrls w raw).length ≤ (stripLines raw).length ∧
    ((main input_txt w).1.filesWritten.map Prod.snd).head? =
      some (String.intercalate "\n"
          (summary_lines w.runDate (basename input_txt) (stripLines raw)
            (validatedUrls w raw)) ++ "\n\n" ++
        String.intercalate "\n\n" (sectionStrings w raw)) := by
  refine ⟨?_, rfl, rfl, List.length_filter_le _ _, ?_⟩
  · simp only [summaryCounts]
    omega
  · rw [main_success_run input_txt w raw hread hroot hvalid]
    rfl

/-- C6 witness: the hypotheses and conclusion at a concrete run scanning
two non-blank lines of which one passes validation. -/
theorem summary_counts_invariant_witness :
    exampleWorld.readFile = some exampleRaw ∧
    (¬ validatedUrls exampleWorld exampleRaw = []) ∧
    (((summaryCounts (stripLines exampleRaw)
          (validatedUrls exampleWorld exampleRaw)).2.1 : Int) +
        (summaryCounts (stripLines exampleRaw)
          (validatedUrls exampleWorld exampleRaw)).2.2 =
        ((summaryCounts (stripLines exampleRaw)
          (validatedUrls exampleWorld exampleRaw)).1 : Int) ∧
     (summaryCounts (stripLines exampleRaw)
        (validatedUrls exampleWorld exampleRaw)).1 =
        (stripLines exampleRaw).length ∧
     (summaryCounts (stripLines exampleRaw)
        (validatedUrls exampleWorld exampleRaw)).2.1 =
        (validatedUrls exampleWorld exampleRaw).length ∧
     (validatedUrls exampleWorld exampleRaw).length ≤
        (stripLines exampleRaw).length ∧
     ((main "sitemap.txt" exampleWorld).1.filesWritten.map Prod.snd).head? =
        some (String.intercalate "\n"
            (summary_lines exampleWorld.runDate (basename "sitemap.txt")
              (stripLines exampleRaw)
              (validatedUrls exampleWorld exampleRaw)) ++ "\n\n" ++
          String.intercalate "\n\n"
            (sectionStrings exampleWorld exampleRaw))) :=
  ⟨rfl, by decide, summary_counts_invariant "sitemap.txt" exampleWorld
    exampleRaw rfl (by decide) (by decide)⟩

/-- C7: when no input URL passes validation, only the log file is written —
no report file — its content being the per-URL validation lines followed by
the appended "No valid URLs" entry, and the run completes without an
exception. -/
theorem no_valid_urls_writes_only_log
    (input_txt : String) (w : World) (raw : List String)
    (hread : w.readFile = some raw) (hroot : ¬ w.output_root = "")
    (hnone : validatedUrls w raw = []) :
    (main input_txt w).2 = none ∧
    (main input_txt w).1.filesWritten =
      [(logFilePath input_txt w,
        String.intercalate "\n" (validationLogLines w raw ++
          ["[" ++ w.now ++ "] ❌ No valid URLs to process."]))] := by
  rw [main_novalid_run input_txt w raw hread hroot hnone]
  exact ⟨rfl, rfl⟩

/-- C7 witness: the hypotheses and conclusion at a concrete run whose only
URL is malformed. -/
theorem no_valid_urls_writes_only_log_witness :
    noValidWorld.readFile = some ["ftp://x"] ∧
    validatedUrls noValidWorld ["ftp://x"] = [] ∧
    ((main "s.txt" noValidWorld).2 = none ∧
     (main "s.txt" noValidWorld).1.filesWritten =
       [(logFilePath "s.txt" noValidWorld,
         String.intercalate "\n" (validationLogLines noValidWorld ["ftp://x"] ++
           ["[" ++ noValidWorld.now ++ "] ❌ No valid URLs to process."]))]) :=
  ⟨rfl, by decide, no_valid_urls_writes_only_log "s.txt" noValidWorld
    ["ftp://x"] rfl (by decide) (by decide)⟩

/-- C8 counterexample: with a missing input file the run does terminate
early and writes nothing, but the failure is NOT reported to the user
instead of a raw stack trace: no popup is shown (`popups = []`) and the
`FileNotFoundError` escapes `main` uncaught (the `some` error component),
surfacing at the top level as a raw traceback. -/
theorem missing_input_uncaught_exception_counterexample :
    main "missing.txt" missingInputWorld =
      ({ filesWritten := [], popups := [], progressCalls := [] },
       some (.fileNotFound "missing.txt")) := by
  rfl

/-- C8 (amended): when the input file path does not exist or is unreadable,
the run terminates immediately with no output files written and no progress
reported, but the failure is not converted into a user-facing report: no
popup notification is shown and the `FileNotFoundError` propagates out of
`main` as an uncaught exception (a raw stack trace). -/
theorem missing_input_terminates_early_without_user_report
    (input_txt : String) (w : World) (hread : w.readFile = none) :
    main input_txt w =
      ({ filesWritten := [], popups := [], progressCalls := [] },
       some (.fileNotFound input_txt)) := by
  simp [main, hread]

/-- C8 witness: the hypothesis and conclusion at a concrete unreadable
input. -/
theorem missing_input_terminates_early_without_user_report_witness :
    missingInputWorld.readFile = none ∧
    main "absent.txt" missingInputWorld =
      ({ filesWritten := [], popups := [], progressCalls := [] },
       some (.fileNotFound "absent.txt")) :=
  ⟨rfl, missing_input_terminates_early_without_user_report "absent.txt"
    missingInputWorld rfl⟩

/-- C9 counterexample: for input `sitemap.txt` and run timestamp
`20260101-120000`, the files are written as
`{root}/20260101-120000-sitemap/sitemap-full_text_output.txt` and
`.../sitemap-log.txt`: the timestamp goes into the directory name (and
timestamp-first at that), while the file names carry no timestamp — against
the claimed `{base_name}-{timestamp}-full_text_output.txt` /
`{base_name}-{timestamp}-log.txt` naming. -/
theorem output_file_names_counterexample :
    (main "sitemap.txt" exampleWorld).1.filesWritten.map Prod.fst =
      ["/out/20260101-120000-sitemap/sitemap-full_text_output.txt",
       "/out/20260101-120000-sitemap/sitemap-log.txt"] ∧
    basename "/out/20260101-120000-sitemap/sitemap-full_text_output.txt" ≠
      "sitemap-20260101-120000-full_text_output.txt" ∧
    basename "/out/20260101-120000-sitemap/sitemap-log.txt" ≠
      "sitemap-20260101-120000-log.txt" := by
  decide

/-- C9 (amended): the two output files of a successful run are named
deterministically from the input file's base name and the run timestamp,
but as `{output_root}/{timestamp}-{base_name}/{base_name}-full_text_output.txt`
and `{output_root}/{timestamp}-{base_name}/{base_name}-log.txt`: the
timestamp appears in the enclosing directory name, not in the file
names. -/
theorem output_files_named_from_base_in_timestamped_dir
    (input_txt : String) (w : World) (raw : List String)
    (hread : w.readFile = some raw) (hroot : ¬ w.output_root = "")
    (hvalid : ¬ validatedUrls w raw = []) :
    (main input_txt w).1.filesWritten.map Prod.fst =
      [w.output_root ++ "/" ++ w.timestamp ++ "-" ++
         splitextRoot (basename input_txt) ++ "/" ++
         splitextRoot (basename input_txt) ++ "-full_text_output.txt",
       w.output_root ++ "/" ++ w.timestamp ++ "-" ++
         splitextRoot (basename input_txt) ++ "/" ++
         splitextRoot (basename input_txt) ++ "-log.txt"] := by
  rw [main_success_run input_txt w raw hread hroot hvalid]
  rfl

/-- C9 witness: the hypotheses and conclusion at a concrete run. -/
theorem output_files_named_from_base_in_timestamped_dir_witness :
    exampleWorld.readFile = some exampleRaw ∧
    (¬ validatedUrls exampleWorld exampleRaw = []) ∧
    (main "sitemap.txt" exampleWorld).1.filesWritten.map Prod.fst =
      [exampleWorld.output_root ++ "/" ++ exampleWorld.timestamp ++ "-" ++
         splitextRoot (basename "sitemap.txt") ++ "/" ++
         splitextRoot (basename "sitemap.txt") ++ "-full_text_output.txt",
       exampleWorld.output_root ++ "/" ++ exampleWorld.timestamp ++ "-" ++
         splitextRoot (basename "sitemap.txt") ++ "/" ++
         splitextRoot (basename "sitemap.txt") ++ "-log.txt"] :=
  ⟨rfl, by decide, output_files_named_from_base_in_timestamped_dir
    "sitemap.txt" exampleWorld exampleRaw rfl (by decide) (by decide)⟩

/-- C10: when the input file exists but contains no non-blank lines, the
run takes the no-valid-URLs path — only the log file is written, holding
just the "No valid URLs" entry, and the run returns normally — and the
progress computation is never invoked at all, in particular never with the
zero total that would make `update_progress` raise `ZeroDivisionError`. -/
theorem empty_input_writes_log_only_and_never_divides
    (input_txt : String) (w : World) (raw : List String)
    (hread : w.readFile = some raw) (hroot : ¬ w.output_root = "")
    (hempty : stripLines raw = []) :
    (main input_txt w).2 = none ∧
    (main input_txt w).1.filesWritten =
      [(logFilePath input_txt w,
        "[" ++ w.now ++ "] ❌ No valid URLs to process.")] ∧
    (main input_txt w).1.progressCalls = [] ∧
    ((main input_txt w).1.progressCalls.all
      (fun c => (update_progress c.1 c.2).isSome)) = true := by
  have hnone : validatedUrls w raw = [] := by
    simp [validatedUrls, hempty]
  rw [main_novalid_run input_txt w raw hread hroot hnone]
  refine ⟨rfl, ?_, ?_, ?_⟩
  · simp only [noValidLogText, validationLogLines, hempty, List.flatMap_nil,
      List.nil_append]
    rfl
  · simp [hempty, validationLoop]
  · simp [hempty, validationLoop]

/-- C10 witness: the hypotheses and conclusion at a concrete input file of
blank lines only. -/
theorem empty_input_writes_log_only_and_never_divides_witness :
    emptyInputWorld.readFile = some ["", "   "] ∧
    stripLines ["", "   "] = [] ∧
    ((main "e.txt" emptyInputWorld).2 = none ∧
     (main "e.txt" emptyInputWorld).1.filesWritten =
       [(logFilePath "e.txt" emptyInputWorld,
         "[" ++ emptyInputWorld.now ++ "] ❌ No valid URLs to process.")] ∧
     (main "e.txt" emptyInputWorld).1.progressCalls = [] ∧
     ((main "e.txt" emptyInputWorld).1.progressCalls.all
       (fun c => (update_progress c.1 c.2).isSome)) = true) :=
  ⟨rfl, by decide, empty_input_writes_log_only_and_never_divides "e.txt"
    emptyInputWorld ["", "   "] rfl (by decide) (by decide)⟩

end Sitemap
